import Mathlib

/-!
Verification development for the instance-type resolution-and-caching engine
(`pkg/cloudprovider/instancetypes.go`).

The Go code is shallowly embedded:

* `ec2.InstanceTypeInfo` becomes `InstanceTypeInfo` (only the fields this file
  reads: the name and the supported usage classes).
* `sets.String` values become duplicate-free `List String` values; the Go
  iteration order over a set/map is unspecified, so any fixed order is a
  faithful refinement and no theorem below depends on the order.
* The pricing provider and the unavailable-offerings cache are external
  collaborators whose implementations are outside the reviewed slice; they are
  modelled from the spec as finite tables with point lookups.
* The `go-cache` instance is modelled as association lists, one per disjoint
  key space (`types`, `zones:<hash>`, composite result keys), without TTL
  expiry: the claims under study quantify over cache contents, not over time.
* 64-bit content hashes (`hashstructure`) are modelled injectively: a cache
  key carries the hashed value itself.  Every claim below uses only
  "equal inputs give equal keys", which holds for any deterministic hash.
* Fallible calls return `Except String`; methods that mutate the provider
  are state-passing functions `ProviderState → result × ProviderState`.
-/

/-- One element of `ec2.DescribeInstanceTypesOutput.InstanceTypes`: the
instance-type name and its `SupportedUsageClasses` list (which the source
warns may contain duplicates). -/
structure InstanceTypeInfo where
  instanceType : String
  supportedUsageClasses : List String
deriving Repr, DecidableEq

/-- The constant `ec2.UsageClassTypeSpot`. -/
def UsageClassTypeSpot : String := "spot"

/-- The constant `ec2.UsageClassTypeOnDemand`. -/
def UsageClassTypeOnDemand : String := "on-demand"

/-- One `ec2.Subnet` as read by the zone-mapping code: only its
availability zone. -/
structure Subnet where
  availabilityZone : String
deriving Repr, DecidableEq

/-- The `cloudprovider.Offering` value object produced by the composer.
Prices are modelled as rationals; the source only moves them around, it never
computes with them, so the numeric type is irrelevant beyond having a zero. -/
structure Offering where
  zone : String
  capacityType : String
  price : ℚ
  available : Bool
deriving Repr, DecidableEq

/-- Modelled from the spec: the Pricing Feed collaborator keeps
"asynchronously refreshed tables of current spot price (keyed by instance
type + zone) and on-demand price (keyed by instance type)" and exposes
synchronous point lookups `SpotPrice` and `OnDemandPrice` returning
`(price, found)`.  Its implementation is outside the reviewed slice. -/
structure PricingProvider where
  spotPrices : List ((String × String) × ℚ)
  onDemandPrices : List (String × ℚ)
deriving Repr, DecidableEq

/-- Modelled from the spec: `SpotPrice(instanceType, zone) -> (price, found)`.
A miss returns the Go zero value `0` with `found = false`. -/
def PricingProvider.SpotPrice (pr : PricingProvider) (instanceType zone : String) : ℚ × Bool :=
  match pr.spotPrices.find? fun e => decide (e.1 = (instanceType, zone)) with
  | some e => (e.2, true)
  | none => (0, false)

/-- Modelled from the spec: `OnDemandPrice(instanceType) -> (price, found)`.
A miss returns the Go zero value `0` with `found = false`. -/
def PricingProvider.OnDemandPrice (pr : PricingProvider) (instanceType : String) : ℚ × Bool :=
  match pr.onDemandPrices.find? fun e => decide (e.1 = instanceType) with
  | some e => (e.2, true)
  | none => (0, false)

/-- The Unavailability Tracker (`awscache.UnavailableOfferings`): a finite set
of (instance type, zone, capacity type) triples plus its change counter
`SeqNum`.  Only its membership test and counter are read by the source. -/
structure UnavailableOfferings where
  entries : List (String × String × String)
  SeqNum : ℕ
deriving Repr, DecidableEq

/-- The membership test `UnavailableOfferings.IsUnavailable(instanceType, zone, capacityType)`. -/
def UnavailableOfferings.IsUnavailable (u : UnavailableOfferings)
    (instanceType zone capacityType : String) : Bool :=
  decide ((instanceType, zone, capacityType) ∈ u.entries)

/-- The body of the inner loop of `createOfferings` for one `(zone,
capacityType)` pair: the `switch` on the capacity type, where the `default`
branch `continue`s (modelled as `none`), and otherwise one `Offering` with
`available = !isUnavailable && ok`. -/
def offeringFor (u : UnavailableOfferings) (pr : PricingProvider)
    (instanceType : InstanceTypeInfo) (zone capacityType : String) : Option Offering :=
  let isUnavailable := u.IsUnavailable instanceType.instanceType zone capacityType
  if capacityType = UsageClassTypeSpot then
    let r := pr.SpotPrice instanceType.instanceType zone
    some { zone := zone, capacityType := capacityType, price := r.1,
           available := !isUnavailable && r.2 }
  else if capacityType = UsageClassTypeOnDemand then
    let r := pr.OnDemandPrice instanceType.instanceType
    some { zone := zone, capacityType := capacityType, price := r.1,
           available := !isUnavailable && r.2 }
  else
    none

/-- The method `InstanceTypeProvider.createOfferings`: for each zone, for each element of
`sets.NewString(instanceType.SupportedUsageClasses...)` (the de-duplicated
usage classes), append the offering produced by the `switch`.  The Go set
iteration order is unspecified; `List.dedup` fixes one order. -/
def InstanceTypeProvider.createOfferings (u : UnavailableOfferings) (pr : PricingProvider)
    (instanceType : InstanceTypeInfo) (zones : List String) : List Offering :=
  zones.flatMap fun zone =>
    (instanceType.supportedUsageClasses.dedup).filterMap (offeringFor u pr instanceType zone)

/-- A usage class the `switch` in `createOfferings` recognizes. -/
def isRecognizedUsageClass (capacityType : String) : Bool :=
  decide (capacityType = UsageClassTypeSpot) || decide (capacityType = UsageClassTypeOnDemand)

/-- The price lookup `createOfferings` performs for a recognized capacity
type: spot uses (instance type, zone), on-demand only the instance type. -/
def priceLookup (pr : PricingProvider) (instanceType capacityType zone : String) : ℚ × Bool :=
  if capacityType = UsageClassTypeSpot then pr.SpotPrice instanceType zone
  else pr.OnDemandPrice instanceType

lemma offeringFor_spot (u : UnavailableOfferings) (pr : PricingProvider)
    (it : InstanceTypeInfo) (zone : String) :
    offeringFor u pr it zone UsageClassTypeSpot =
      some { zone := zone, capacityType := UsageClassTypeSpot,
             price := (pr.SpotPrice it.instanceType zone).1,
             available :=
               (!u.IsUnavailable it.instanceType zone UsageClassTypeSpot &&
                 (pr.SpotPrice it.instanceType zone).2) } := by
  simp [offeringFor]

lemma offeringFor_onDemand (u : UnavailableOfferings) (pr : PricingProvider)
    (it : InstanceTypeInfo) (zone : String) :
    offeringFor u pr it zone UsageClassTypeOnDemand =
      some { zone := zone, capacityType := UsageClassTypeOnDemand,
             price := (pr.OnDemandPrice it.instanceType).1,
             available :=
               (!u.IsUnavailable it.instanceType zone UsageClassTypeOnDemand &&
                 (pr.OnDemandPrice it.instanceType).2) } := by
  have hne : ¬ (UsageClassTypeOnDemand = UsageClassTypeSpot) := by decide
  simp [offeringFor, hne]

lemma offeringFor_recognized {u : UnavailableOfferings} {pr : PricingProvider}
    {it : InstanceTypeInfo} {zone capacityType : String}
    (h : isRecognizedUsageClass capacityType = true) :
    offeringFor u pr it zone capacityType =
      some { zone := zone, capacityType := capacityType,
             price := (priceLookup pr it.instanceType capacityType zone).1,
             available :=
               (!u.IsUnavailable it.instanceType zone capacityType &&
                 (priceLookup pr it.instanceType capacityType zone).2) } := by
  simp only [isRecognizedUsageClass, Bool.or_eq_true, decide_eq_true_eq] at h
  rcases h with h1 | h2
  · subst h1
    rw [offeringFor_spot]
    simp [priceLookup]
  · subst h2
    rw [offeringFor_onDemand]
    have hne : ¬ (UsageClassTypeOnDemand = UsageClassTypeSpot) := by decide
    simp [priceLookup, hne]

lemma offeringFor_unrecognized {u : UnavailableOfferings} {pr : PricingProvider}
    {it : InstanceTypeInfo} {zone capacityType : String}
    (h : isRecognizedUsageClass capacityType = false) :
    offeringFor u pr it zone capacityType = none := by
  simp only [isRecognizedUsageClass, Bool.or_eq_false_iff, decide_eq_false_iff_not] at h
  simp [offeringFor, h.1, h.2]

lemma offeringFor_eq_some {u : UnavailableOfferings} {pr : PricingProvider}
    {it : InstanceTypeInfo} {zone capacityType : String} {o : Offering}
    (h : offeringFor u pr it zone capacityType = some o) :
    isRecognizedUsageClass capacityType = true ∧
    o.zone = zone ∧ o.capacityType = capacityType ∧
    o.price = (priceLookup pr it.instanceType capacityType zone).1 ∧
    o.available =
      (!u.IsUnavailable it.instanceType zone capacityType &&
        (priceLookup pr it.instanceType capacityType zone).2) := by
  cases hr : isRecognizedUsageClass capacityType with
  | false => rw [offeringFor_unrecognized hr] at h; exact absurd h (by simp)
  | true =>
    rw [offeringFor_recognized hr] at h
    have h' := Option.some.inj h
    subst h'
    exact ⟨rfl, rfl, rfl, rfl, rfl⟩

lemma mem_createOfferings {u : UnavailableOfferings} {pr : PricingProvider}
    {it : InstanceTypeInfo} {zones : List String} {o : Offering} :
    o ∈ InstanceTypeProvider.createOfferings u pr it zones ↔
      ∃ zone ∈ zones, ∃ capacityType ∈ it.supportedUsageClasses.dedup,
        offeringFor u pr it zone capacityType = some o := by
  simp [InstanceTypeProvider.createOfferings, List.mem_flatMap, List.mem_filterMap]

lemma map_pair_filterMap_offeringFor (u : UnavailableOfferings) (pr : PricingProvider)
    (it : InstanceTypeInfo) (zone : String) (cts : List String) :
    ((cts.filterMap (offeringFor u pr it zone)).map fun o => (o.zone, o.capacityType)) =
      (cts.filter isRecognizedUsageClass).map fun ct => (zone, ct) := by
  induction cts with
  | nil => rfl
  | cons c rest ih =>
    cases hc : isRecognizedUsageClass c with
    | true =>
      rw [List.filterMap_cons, offeringFor_recognized hc, List.filter_cons]
      simp [hc, ih]
    | false =>
      rw [List.filterMap_cons, offeringFor_unrecognized hc, List.filter_cons]
      simp [hc, ih]

lemma createOfferings_pairs_eq (u : UnavailableOfferings) (pr : PricingProvider)
    (it : InstanceTypeInfo) (zones : List String) :
    ((InstanceTypeProvider.createOfferings u pr it zones).map fun o => (o.zone, o.capacityType)) =
      zones.flatMap fun zone =>
        (it.supportedUsageClasses.dedup.filter isRecognizedUsageClass).map fun ct => (zone, ct) := by
  simp only [InstanceTypeProvider.createOfferings, List.map_flatMap]
  congr 1
  funext zone
  exact map_pair_filterMap_offeringFor u pr it zone _

lemma SpotPrice_no_data {pr : PricingProvider} {name z : String}
    (h : (pr.SpotPrice name z).2 = false) : (pr.SpotPrice name z).1 = 0 := by
  unfold PricingProvider.SpotPrice at h ⊢
  rcases hf : pr.spotPrices.find? fun e => decide (e.1 = (name, z)) with _ | e
  · rw [hf]
  · rw [hf] at h
    simp at h

lemma OnDemandPrice_no_data {pr : PricingProvider} {name : String}
    (h : (pr.OnDemandPrice name).2 = false) : (pr.OnDemandPrice name).1 = 0 := by
  unfold PricingProvider.OnDemandPrice at h ⊢
  rcases hf : pr.onDemandPrices.find? fun e => decide (e.1 = name) with _ | e
  · rw [hf]
  · rw [hf] at h
    simp at h

lemma priceLookup_no_data {pr : PricingProvider} {name ct z : String}
    (h : (priceLookup pr name ct z).2 = false) : (priceLookup pr name ct z).1 = 0 := by
  by_cases hct : ct = UsageClassTypeSpot
  · unfold priceLookup at h ⊢
    rw [if_pos hct] at h ⊢
    exact SpotPrice_no_data h
  · unfold priceLookup at h ⊢
    rw [if_neg hct] at h ⊢
    exact OnDemandPrice_no_data h

/-! Concrete fixtures used by the closed conjuncts and witnesses below. -/

/-- An instance type supporting exactly the spot and on-demand usage classes. -/
def itSpotOD : InstanceTypeInfo :=
  { instanceType := "m5.large", supportedUsageClasses := ["spot", "on-demand"] }

/-- An instance type supporting only the on-demand usage class. -/
def itOD : InstanceTypeInfo :=
  { instanceType := "m5.large", supportedUsageClasses := ["on-demand"] }

/-- An empty unavailability tracker. -/
def uEmpty : UnavailableOfferings := { entries := [], SeqNum := 0 }

/-- A tracker marking exactly ("m5.large", "A", "spot") unavailable. -/
def uMark : UnavailableOfferings := { entries := [("m5.large", "A", "spot")], SeqNum := 7 }

/-- A pricing provider with no data at all. -/
def prEmpty : PricingProvider := { spotPrices := [], onDemandPrices := [] }

/-- A pricing provider whose genuine on-demand price for "m5.large" is 0. -/
def prZeroOD : PricingProvider := { spotPrices := [], onDemandPrices := [("m5.large", 0)] }

/-- C1: `createOfferings` returns exactly one Offering per (zone, distinct
recognized purchasing option) pair: the (zone, capacityType) projections of its
output are exactly the cross product of the zone set with the de-duplicated,
recognized usage classes (duplicates collapsed, unrecognized options skipped
without failing), with no duplicates when the zone set has none; in particular
for usage classes {spot, on-demand} and zones {A, B} the pairs are exactly
{(A,spot),(A,on-demand),(B,spot),(B,on-demand)}. -/
theorem createOfferings_offering_completeness :
    (∀ u pr it zones,
        ((InstanceTypeProvider.createOfferings u pr it zones).map
            fun o => (o.zone, o.capacityType)) =
          zones.flatMap fun zone =>
            (it.supportedUsageClasses.dedup.filter isRecognizedUsageClass).map
              fun ct => (zone, ct)) ∧
    (∀ u pr it zones, zones.Nodup →
        ((InstanceTypeProvider.createOfferings u pr it zones).map
            fun o => (o.zone, o.capacityType)).Nodup) ∧
    ((InstanceTypeProvider.createOfferings uEmpty prEmpty itSpotOD ["A", "B"]).map
        fun o => (o.zone, o.capacityType)) =
      [("A", "spot"), ("A", "on-demand"), ("B", "spot"), ("B", "on-demand")] := by
  refine ⟨createOfferings_pairs_eq, ?_, by decide⟩
  intro u pr it zones hz
  rw [createOfferings_pairs_eq]
  refine List.nodup_flatMap.2 ⟨?_, ?_⟩
  · intro z _
    refine List.Nodup.map ?_ ((it.supportedUsageClasses.nodup_dedup).filter _)
    intro a b hab
    exact congrArg Prod.snd hab
  · refine hz.imp ?_
    intro z₁ z₂ hne p hp₁ hp₂
    simp only [List.mem_map] at hp₁ hp₂
    obtain ⟨ct₁, _, rfl⟩ := hp₁
    obtain ⟨ct₂, _, h2⟩ := hp₂
    exact hne (congrArg Prod.fst h2).symm

/-- Witness for C1 at a concrete input: the zone list ["A", "B"] has no
duplicates and the composed offering pairs are duplicate-free. -/
theorem createOfferings_offering_completeness_witness :
    ((InstanceTypeProvider.createOfferings uEmpty prEmpty itSpotOD ["A", "B"]).map
        fun o => (o.zone, o.capacityType)).Nodup :=
  createOfferings_offering_completeness.2.1 uEmpty prEmpty itSpotOD ["A", "B"] (by decide)

/-- C3: an offering whose (instance type, zone, capacity type) triple the
Unavailability Tracker marks unavailable has `available = false` regardless of
the price lookup outcome, while every offering whose triple is not marked and
whose price lookup finds data has `available = true`; so marking one triple
affects exactly the offerings bearing that triple. -/
theorem createOfferings_unavailability_masking :
    ∀ u pr it zones o, o ∈ InstanceTypeProvider.createOfferings u pr it zones →
      (u.IsUnavailable it.instanceType o.zone o.capacityType = true → o.available = false) ∧
      (u.IsUnavailable it.instanceType o.zone o.capacityType = false →
        (priceLookup pr it.instanceType o.capacityType o.zone).2 = true →
        o.available = true) := by
  intro u pr it zones o ho
  obtain ⟨z, _, ct, _, hsome⟩ := mem_createOfferings.1 ho
  obtain ⟨_, hoz, hoct, _, hoa⟩ := offeringFor_eq_some hsome
  subst hoz
  subst hoct
  constructor
  · intro hu
    rw [hoa, hu]
    simp
  · intro hu hok
    rw [hoa, hu, hok]
    simp

/-- Witness for C3: with exactly ("m5.large", "A", "spot") marked unavailable,
the composed spot offering in zone "A" has `available = false` and the
on-demand offering in zone "A" (unmarked, priced) has `available = true`. -/
theorem createOfferings_unavailability_masking_witness :
    (⟨"A", "spot", 0, false⟩ : Offering).available = false ∧
    (⟨"A", "on-demand", 3, true⟩ : Offering).available = true :=
  ⟨(createOfferings_unavailability_masking uMark
      { spotPrices := [], onDemandPrices := [("m5.large", 3)] } itSpotOD ["A"]
      ⟨"A", "spot", 0, false⟩ (by decide)).1 (by decide),
   (createOfferings_unavailability_masking uMark
      { spotPrices := [], onDemandPrices := [("m5.large", 3)] } itSpotOD ["A"]
      ⟨"A", "on-demand", 3, true⟩ (by decide)).2 (by decide) (by decide)⟩

/-- C4: for every zone in the zone set and every supported, recognized usage
class whose price lookup finds no data, `createOfferings` still emits that
offering (it is total, so no error is possible), with `available = false` and
the "no price" sentinel 0 as its price. -/
theorem createOfferings_missing_price_included :
    ∀ u pr it zones z ct, z ∈ zones → ct ∈ it.supportedUsageClasses →
      isRecognizedUsageClass ct = true →
      (priceLookup pr it.instanceType ct z).2 = false →
      ∃ o ∈ InstanceTypeProvider.createOfferings u pr it zones,
        o.zone = z ∧ o.capacityType = ct ∧ o.available = false ∧ o.price = 0 := by
  intro u pr it zones z ct hz hct hr hnof
  refine ⟨_, mem_createOfferings.2
    ⟨z, hz, ct, List.mem_dedup.2 hct, offeringFor_recognized hr⟩, rfl, rfl, ?_, ?_⟩
  · show (!u.IsUnavailable it.instanceType z ct &&
        (priceLookup pr it.instanceType ct z).2) = false
    rw [hnof]
    simp
  · exact priceLookup_no_data hnof

/-- Witness for C4: with an empty pricing table, the spot offering for
("m5.large", "A") is still composed, unavailable and priced 0. -/
theorem createOfferings_missing_price_included_witness :
    ∃ o ∈ InstanceTypeProvider.createOfferings uEmpty prEmpty itSpotOD ["A", "B"],
      o.zone = "A" ∧ o.capacityType = "spot" ∧ o.available = false ∧ o.price = 0 :=
  createOfferings_missing_price_included uEmpty prEmpty itSpotOD ["A", "B"] "A" "spot"
    (by decide) (by decide) (by decide) (by decide)

/-- C10: every composed offering whose price lookup found no data carries
price exactly 0; consequently the price field of an unpriced offering equals that
of an offering whose genuine price is 0 (shown on a concrete pair of pricing
tables differing only in whether "m5.large" has an on-demand price 0). -/
theorem createOfferings_missing_price_zero :
    (∀ u pr it zones o, o ∈ InstanceTypeProvider.createOfferings u pr it zones →
        (priceLookup pr it.instanceType o.capacityType o.zone).2 = false → o.price = 0) ∧
    ((InstanceTypeProvider.createOfferings uEmpty prEmpty itOD ["A"]).map Offering.price =
      (InstanceTypeProvider.createOfferings uEmpty prZeroOD itOD ["A"]).map Offering.price) := by
  constructor
  · intro u pr it zones o ho hnof
    obtain ⟨z, _, ct, _, hsome⟩ := mem_createOfferings.1 ho
    obtain ⟨_, hoz, hoct, hop, _⟩ := offeringFor_eq_some hsome
    subst hoz
    subst hoct
    rw [hop]
    exact priceLookup_no_data hnof
  · decide

/-- Witness for C10: the unpriced spot offering for ("m5.large", "A") composed
from an empty pricing table has price 0. -/
theorem createOfferings_missing_price_zero_witness :
    (⟨"A", "spot", 0, false⟩ : Offering).price = 0 :=
  createOfferings_missing_price_zero.1 uEmpty prEmpty itSpotOD ["A"]
    ⟨"A", "spot", 0, false⟩ (by decide) (by decide)

/-! ## The provider state, its caches and the stateful methods -/

/-- Association-list lookup, modelling `cache.Get`: the first binding wins. -/
def alLookup {κ α : Type} [DecidableEq κ] (c : List (κ × α)) (k : κ) : Option α :=
  (c.find? fun p => decide (p.1 = k)).map fun p => p.2

/-- Association-list insertion, modelling `cache.SetDefault`: the new binding
shadows any older binding for the same key. -/
def alInsert {κ α : Type} [DecidableEq κ] (c : List (κ × α)) (k : κ) (v : α) : List (κ × α) :=
  (k, v) :: c

lemma alLookup_alInsert_self {κ α : Type} [DecidableEq κ]
    (c : List (κ × α)) (k : κ) (v : α) : alLookup (alInsert c k v) k = some v := by
  simp [alLookup, alInsert, List.find?]

/-- Building the `map[string]*ec2.InstanceTypeInfo` keyed by instance-type
name from the paginated `DescribeInstanceTypes` responses: later pages
overwrite earlier bindings of the same name, as Go map assignment does. -/
def upsertTypes (m : List (String × InstanceTypeInfo)) (k : String) (v : InstanceTypeInfo) :
    List (String × InstanceTypeInfo) :=
  match m with
  | [] => [(k, v)]
  | (k₀, v₀) :: rest => if k₀ = k then (k, v) :: rest else (k₀, v₀) :: upsertTypes rest k v

/-- The pagination callback of `getInstanceTypes` folded over all pages. -/
def buildTypesMap (pages : List InstanceTypeInfo) : List (String × InstanceTypeInfo) :=
  pages.foldl (fun m i => upsertTypes m i.instanceType i) []

/-- The `map[string]sets.String` from instance-type name to the zone set where
it is orderable; values are duplicate-free lists. -/
abbrev ZoneMap : Type := List (String × List String)

/-- Insertion (`sets.String.Insert`) of one zone into the entry for one instance type,
creating the entry if absent (the `if _, ok := m[k]; !ok` block in the
pagination callback). -/
def zmInsert (m : List (String × List String)) (k z : String) : List (String × List String) :=
  match m with
  | [] => [(k, [z])]
  | (k₀, zs) :: rest =>
      if k₀ = k then (k₀, if z ∈ zs then zs else zs ++ [z]) :: rest
      else (k₀, zs) :: zmInsert rest k z

/-- The pagination callback of `getInstanceTypeZones` folded over all reported
(instance type, location) offerings: keep only locations inside the zone
set of the subnets. -/
def buildZoneMap (zones : List String) (offs : List (String × String)) :
    List (String × List String) :=
  offs.foldl (fun m off => if off.2 ∈ zones then zmInsert m off.1 off.2 else m) []

/-- The `v1alpha1.AWSNodeTemplate` fields read by this file: its unique identity
(`UID`) and its subnet selector.  The selector is opaque here; its 64-bit
content hash is modelled injectively by the selector value itself. -/
structure AWSNodeTemplate where
  uid : String
  subnetSelector : String
deriving Repr, DecidableEq

/-- Modelled from the spec: `NewInstanceType` (outside the reviewed slice)
builds the externally visible `ResolvedInstanceType` `{name, capability
attributes, list of Offering}` from one catalog record, the kubelet
configuration and the composed offerings. -/
structure ResolvedInstanceType where
  name : String
  offerings : List Offering
deriving Repr, DecidableEq

/-- Modelled from the spec: the construction performed by `NewInstanceType`. -/
def newInstanceType (i : InstanceTypeInfo) (offerings : List Offering) : ResolvedInstanceType :=
  { name := i.instanceType, offerings := offerings }

/-- The composite result-cache key
`fmt.Sprintf("%d-%d-%s-%016x-%016x", instanceTypesSeqNum,
unavailableOfferings.SeqNum, nodeTemplate.UID, instanceTypeZonesHash,
kcHash)`, with the two content hashes modelled injectively by the hashed
values.  Kubelet configurations are opaque and stand for their own hash. -/
def CompositeKey : Type := ℕ × ℕ × String × ZoneMap × String

instance : DecidableEq CompositeKey := fun a b =>
  haveI : DecidableEq (ZoneMap × String) := inferInstance
  haveI : DecidableEq (String × ZoneMap × String) := inferInstance
  haveI : DecidableEq (ℕ × String × ZoneMap × String) := inferInstance
  haveI h : DecidableEq (ℕ × ℕ × String × ZoneMap × String) := instDecidableEqProd
  h a b

/-- The composite-key construction in `List`: catalog sequence number,
unavailability sequence number, node template UID, zone-map content hash and
kubelet-configuration content hash. -/
def compositeKey (seqNum unavailSeqNum : ℕ) (uid : String) (m : ZoneMap) (kc : String) :
    CompositeKey :=
  (seqNum, unavailSeqNum, uid, m, kc)

/-- The mutable fields of `InstanceTypeProvider`: the three disjoint key
spaces of its `go-cache` instance (instance-type catalog, per-selector zone
maps, composite-key results), the last catalog value seen by the change monitor,
and the catalog sequence number. -/
structure ProviderState where
  cacheTypes : Option (List (String × InstanceTypeInfo))
  cacheZones : List (String × ZoneMap)
  cacheResult : List (CompositeKey × List ResolvedInstanceType)
  cmInstanceTypes : Option (List (String × InstanceTypeInfo))
  instanceTypesSeqNum : ℕ
deriving DecidableEq

/-- The external collaborators read during one resolution: the paginated EC2
responses (already filtered server-side to hvm virtualization and
x86_64/arm64 architectures, and to availability-zone location type), the
subnet provider, the pricing feed and the unavailability tracker. -/
structure Env where
  describeInstanceTypes : Except String (List InstanceTypeInfo)
  describeSubnets : String → Except String (List Subnet)
  describeZoneOfferings : Except String (List (String × String))
  pricing : PricingProvider
  unavailable : UnavailableOfferings

/-- The method `InstanceTypeProvider.getInstanceTypes`: serve the catalog from cache, or
fetch all pages, build the name-keyed map, record it in the change monitor,
increment `instanceTypesSeqNum` (the source increments unconditionally on
every uncached fetch; `cm.HasChanged` gates only a debug log) and cache it. -/
def InstanceTypeProvider.getInstanceTypes (env : Env) (s : ProviderState) :
    Except String (List (String × InstanceTypeInfo)) × ProviderState :=
  match s.cacheTypes with
  | some cached => (Except.ok cached, s)
  | none =>
    match env.describeInstanceTypes with
    | Except.error e =>
        (Except.error ("fetching instance types using ec2.DescribeInstanceTypes, " ++ e), s)
    | Except.ok pages =>
        let instanceTypes := buildTypesMap pages
        (Except.ok instanceTypes,
          { s with
            cmInstanceTypes := some instanceTypes
            instanceTypesSeqNum := s.instanceTypesSeqNum + 1
            cacheTypes := some instanceTypes })

/-- The method `InstanceTypeProvider.getInstanceTypeZones`: serve the zone map from cache
(key: the subnet-selector hash), or resolve the subnets — failing with `no
subnets matched selector` when zero match — take the distinct zones they span,
build the zone map from the paginated zone-offering listing restricted to
those zones, and cache it. -/
def InstanceTypeProvider.getInstanceTypeZones (env : Env) (nodeTemplate : AWSNodeTemplate)
    (s : ProviderState) : Except String ZoneMap × ProviderState :=
  match alLookup s.cacheZones nodeTemplate.subnetSelector with
  | some cached => (Except.ok cached, s)
  | none =>
    match env.describeSubnets nodeTemplate.subnetSelector with
    | Except.error e => (Except.error e, s)
    | Except.ok subnets =>
        if subnets.length = 0 then
          (Except.error ("no subnets matched selector " ++ nodeTemplate.subnetSelector), s)
        else
          let zones := (subnets.map Subnet.availabilityZone).dedup
          match env.describeZoneOfferings with
          | Except.error e =>
              (Except.error ("describing instance type zone offerings, " ++ e), s)
          | Except.ok offs =>
              let instanceTypeZones := buildZoneMap zones offs
              (Except.ok instanceTypeZones,
                { s with cacheZones :=
                    alInsert s.cacheZones nodeTemplate.subnetSelector instanceTypeZones })

/-- The method `InstanceTypeProvider.List`: fetch the catalog and the zone map
(propagating either error), compute the composite key, serve a cached result
on a key hit, and otherwise compose one `ResolvedInstanceType` per catalog
entry — with the empty zone set for entries absent from the zone map — and
cache the assembled list under the key. -/
def InstanceTypeProvider.List (env : Env) (kc : String) (nodeTemplate : AWSNodeTemplate)
    (s : ProviderState) : Except String (List ResolvedInstanceType) × ProviderState :=
  match InstanceTypeProvider.getInstanceTypes env s with
  | (Except.error e, s₁) => (Except.error e, s₁)
  | (Except.ok instanceTypes, s₁) =>
    match InstanceTypeProvider.getInstanceTypeZones env nodeTemplate s₁ with
    | (Except.error e, s₂) => (Except.error e, s₂)
    | (Except.ok instanceTypeZones, s₂) =>
      match alLookup s₂.cacheResult
          (compositeKey s₂.instanceTypesSeqNum env.unavailable.SeqNum nodeTemplate.uid
            instanceTypeZones kc) with
      | some cached => (Except.ok cached, s₂)
      | none =>
        let result := instanceTypes.map fun p =>
          newInstanceType p.2
            (InstanceTypeProvider.createOfferings env.unavailable env.pricing p.2
              ((alLookup instanceTypeZones p.2.instanceType).getD []))
        let inserted := alInsert s₂.cacheResult
          (compositeKey s₂.instanceTypesSeqNum env.unavailable.SeqNum nodeTemplate.uid
            instanceTypeZones kc) result
        (Except.ok result, { s₂ with cacheResult := inserted })

lemma getInstanceTypes_of_cached {env : Env} {s : ProviderState}
    {its : List (String × InstanceTypeInfo)} (h : s.cacheTypes = some its) :
    InstanceTypeProvider.getInstanceTypes env s = (Except.ok its, s) := by
  unfold InstanceTypeProvider.getInstanceTypes
  rw [h]

lemma getInstanceTypes_ok_state {env : Env} {s : ProviderState}
    {its : List (String × InstanceTypeInfo)} {s₁ : ProviderState}
    (h : InstanceTypeProvider.getInstanceTypes env s = (Except.ok its, s₁)) :
    s₁.cacheTypes = some its ∧ s₁.cacheZones = s.cacheZones ∧
    s₁.cacheResult = s.cacheResult := by
  unfold InstanceTypeProvider.getInstanceTypes at h
  cases hc : s.cacheTypes with
  | some cached =>
      rw [hc] at h
      obtain ⟨h1, h2⟩ := Prod.mk.injEq .. ▸ h
      obtain rfl := Except.ok.inj h1
      subst h2
      exact ⟨hc, rfl, rfl⟩
  | none =>
      rw [hc] at h
      cases hd : env.describeInstanceTypes with
      | error e => rw [hd] at h; exact absurd (congrArg Prod.fst h) (by simp)
      | ok pages =>
          rw [hd] at h
          obtain ⟨h1, h2⟩ := Prod.mk.injEq .. ▸ h
          obtain rfl := Except.ok.inj h1
          subst h2
          exact ⟨rfl, rfl, rfl⟩

lemma getInstanceTypes_error_state {env : Env} {s : ProviderState}
    {e : String} {s₁ : ProviderState}
    (h : InstanceTypeProvider.getInstanceTypes env s = (Except.error e, s₁)) :
    s₁ = s := by
  unfold InstanceTypeProvider.getInstanceTypes at h
  cases hc : s.cacheTypes with
  | some cached => rw [hc] at h; exact absurd (congrArg Prod.fst h) (by simp)
  | none =>
      rw [hc] at h
      cases hd : env.describeInstanceTypes with
      | error e' => rw [hd] at h; exact (congrArg Prod.snd h).symm
      | ok pages => rw [hd] at h; exact absurd (congrArg Prod.fst h) (by simp)

lemma getInstanceTypes_rerun {env : Env} {s : ProviderState}
    {its : List (String × InstanceTypeInfo)} {s₁ : ProviderState}
    (h : InstanceTypeProvider.getInstanceTypes env s = (Except.ok its, s₁)) :
    InstanceTypeProvider.getInstanceTypes env s₁ = (Except.ok its, s₁) :=
  getInstanceTypes_of_cached (getInstanceTypes_ok_state h).1

lemma getInstanceTypeZones_of_cached {env : Env} {nt : AWSNodeTemplate} {s : ProviderState}
    {m : ZoneMap} (h : alLookup s.cacheZones nt.subnetSelector = some m) :
    InstanceTypeProvider.getInstanceTypeZones env nt s = (Except.ok m, s) := by
  unfold InstanceTypeProvider.getInstanceTypeZones
  rw [h]

lemma getInstanceTypeZones_ok_state {env : Env} {nt : AWSNodeTemplate} {s : ProviderState}
    {m : ZoneMap} {s₂ : ProviderState}
    (h : InstanceTypeProvider.getInstanceTypeZones env nt s = (Except.ok m, s₂)) :
    alLookup s₂.cacheZones nt.subnetSelector = some m ∧ s₂.cacheTypes = s.cacheTypes ∧
    s₂.cacheResult = s.cacheResult ∧ s₂.instanceTypesSeqNum = s.instanceTypesSeqNum := by
  unfold InstanceTypeProvider.getInstanceTypeZones at h
  cases hc : alLookup s.cacheZones nt.subnetSelector with
  | some cached =>
      rw [hc] at h
      obtain ⟨h1, h2⟩ := Prod.mk.injEq .. ▸ h
      obtain rfl := Except.ok.inj h1
      subst h2
      exact ⟨hc, rfl, rfl, rfl⟩
  | none =>
      rw [hc] at h
      cases hd : env.describeSubnets nt.subnetSelector with
      | error e => rw [hd] at h; exact absurd (congrArg Prod.fst h) (by simp)
      | ok subnets =>
          rw [hd] at h
          dsimp only at h
          by_cases hlen : subnets.length = 0
          · rw [if_pos hlen] at h
            exact absurd (congrArg Prod.fst h) (by simp)
          · rw [if_neg hlen] at h
            cases ho : env.describeZoneOfferings with
            | error e => rw [ho] at h; exact absurd (congrArg Prod.fst h) (by simp)
            | ok offs =>
                rw [ho] at h
                obtain ⟨h1, h2⟩ := Prod.mk.injEq .. ▸ h
                obtain rfl := Except.ok.inj h1
                subst h2
                exact ⟨alLookup_alInsert_self .., rfl, rfl, rfl⟩

lemma getInstanceTypeZones_error_state {env : Env} {nt : AWSNodeTemplate} {s : ProviderState}
    {e : String} {s₂ : ProviderState}
    (h : InstanceTypeProvider.getInstanceTypeZones env nt s = (Except.error e, s₂)) :
    s₂ = s := by
  unfold InstanceTypeProvider.getInstanceTypeZones at h
  cases hc : alLookup s.cacheZones nt.subnetSelector with
  | some cached => rw [hc] at h; exact absurd (congrArg Prod.fst h) (by simp)
  | none =>
      rw [hc] at h
      cases hd : env.describeSubnets nt.subnetSelector with
      | error e' => rw [hd] at h; exact (congrArg Prod.snd h).symm
      | ok subnets =>
          rw [hd] at h
          dsimp only at h
          by_cases hlen : subnets.length = 0
          · rw [if_pos hlen] at h
            exact (congrArg Prod.snd h).symm
          · rw [if_neg hlen] at h
            cases ho : env.describeZoneOfferings with
            | error e' => rw [ho] at h; exact (congrArg Prod.snd h).symm
            | ok offs => rw [ho] at h; exact absurd (congrArg Prod.fst h) (by simp)

lemma getInstanceTypeZones_rerun {env : Env} {nt : AWSNodeTemplate} {s : ProviderState}
    {m : ZoneMap} {s₂ : ProviderState}
    (h : InstanceTypeProvider.getInstanceTypeZones env nt s = (Except.ok m, s₂)) :
    InstanceTypeProvider.getInstanceTypeZones env nt s₂ = (Except.ok m, s₂) :=
  getInstanceTypeZones_of_cached (getInstanceTypeZones_ok_state h).1

/-- State whose catalog cache entry has expired (no `types` entry) while the
change monitor still remembers the previously cached catalog content. -/
def sExpired : ProviderState :=
  { cacheTypes := none, cacheZones := [], cacheResult := [],
    cmInstanceTypes := some (buildTypesMap [itOD]), instanceTypesSeqNum := 5 }

/-- Environment whose catalog fetch returns exactly the previously cached
catalog content again. -/
def envSame : Env :=
  { describeInstanceTypes := Except.ok [itOD],
    describeSubnets := fun _ => Except.ok [],
    describeZoneOfferings := Except.ok [],
    pricing := prEmpty,
    unavailable := uEmpty }

/-- C2 counterexample: a catalog refresh that fetches content identical to the
previously cached content (the value stored by the change monitor) still increments
`instanceTypesSeqNum` from 5 to 6, because the source increments the counter
unconditionally on every uncached fetch; `cm.HasChanged` gates only a log. -/
theorem getInstanceTypes_seqNum_counterexample :
    (InstanceTypeProvider.getInstanceTypes envSame sExpired).1 =
      Except.ok (buildTypesMap [itOD]) ∧
    sExpired.cmInstanceTypes = some (buildTypesMap [itOD]) ∧
    sExpired.instanceTypesSeqNum = 5 ∧
    (InstanceTypeProvider.getInstanceTypes envSame sExpired).2.instanceTypesSeqNum = 6 :=
  ⟨rfl, rfl, rfl, rfl⟩

/-- C2 (amended): `instanceTypesSeqNum` is incremented by a catalog refresh
exactly when the refresh reaches the provider and the fetch succeeds (every
cache miss), regardless of whether the fetched content differs from the
previously cached content; a cache hit or a failed fetch leaves it
unchanged. -/
theorem getInstanceTypes_seqNum_increment :
    ∀ env s, (InstanceTypeProvider.getInstanceTypes env s).2.instanceTypesSeqNum =
      if s.cacheTypes = none ∧ env.describeInstanceTypes.toOption.isSome = true
      then s.instanceTypesSeqNum + 1
      else s.instanceTypesSeqNum := by
  intro env s
  cases hc : s.cacheTypes with
  | some cached =>
      rw [getInstanceTypes_of_cached hc]
      simp [hc]
  | none =>
      cases hd : env.describeInstanceTypes with
      | error e =>
          unfold InstanceTypeProvider.getInstanceTypes
          rw [hc, hd]
          simp [hd, Except.toOption]
      | ok pages =>
          unfold InstanceTypeProvider.getInstanceTypes
          rw [hc, hd]
          simp [hc, hd, Except.toOption]

lemma zmInsert_values_nonempty {k z : String} :
    ∀ m, (∀ p ∈ m, p.2 ≠ []) → ∀ p ∈ zmInsert m k z, p.2 ≠ [] := by
  intro m
  induction m with
  | nil =>
      intro _ p hp
      simp only [zmInsert, List.mem_singleton] at hp
      subst hp
      simp
  | cons hd tl ih =>
      obtain ⟨k₀, zs⟩ := hd
      intro hinv p hp
      unfold zmInsert at hp
      by_cases hk : k₀ = k
      · rw [if_pos hk] at hp
        rcases List.mem_cons.1 hp with h1 | h2
        · subst h1
          by_cases hz : z ∈ zs
          · simpa [hz] using hinv (k₀, zs) (List.mem_cons_self ..)
          · simp [hz]
        · exact hinv _ (List.mem_cons_of_mem _ h2)
      · rw [if_neg hk] at hp
        rcases List.mem_cons.1 hp with h1 | h2
        · subst h1
          exact hinv _ (List.mem_cons_self ..)
        · exact ih (fun q hq => hinv q (List.mem_cons_of_mem _ hq)) p h2

lemma buildZoneMap_go (zones : List String) :
    ∀ (offs : List (String × String)) (m : List (String × List String)), (∀ p ∈ m, p.2 ≠ []) →
      ∀ p ∈ offs.foldl
        (fun m off => if off.2 ∈ zones then zmInsert m off.1 off.2 else m) m, p.2 ≠ [] := by
  intro offs
  induction offs with
  | nil =>
      intro m hm
      simpa using hm
  | cons o rest ih =>
      intro m hm
      rw [List.foldl_cons]
      by_cases ho : o.2 ∈ zones
      · rw [if_pos ho]
        exact ih _ (zmInsert_values_nonempty m hm)
      · rw [if_neg ho]
        exact ih _ hm

lemma buildZoneMap_values_nonempty (zones : List String) (offs : List (String × String)) :
    ∀ p ∈ buildZoneMap zones offs, p.2 ≠ [] :=
  buildZoneMap_go zones offs [] (by simp)

/-- A node template fixture: identity "uid-1", subnet selector "sel-1". -/
def ntX : AWSNodeTemplate := { uid := "uid-1", subnetSelector := "sel-1" }

/-- A provider state with all caches empty. -/
def sEmpty : ProviderState :=
  { cacheTypes := none, cacheZones := [], cacheResult := [],
    cmInstanceTypes := none, instanceTypesSeqNum := 0 }

/-- An environment with one subnet in zone "A" and zone offerings for
"m5.large" in zones "A" and "B" (the latter outside the zones of the subnets). -/
def envZones : Env :=
  { describeInstanceTypes := Except.ok [itOD],
    describeSubnets := fun _ => Except.ok [{ availabilityZone := "A" }],
    describeZoneOfferings := Except.ok [("m5.large", "A"), ("m5.large", "B")],
    pricing := prEmpty,
    unavailable := uEmpty }

/-- C9: every zone map freshly built and returned by `getInstanceTypeZones`
binds each instance-type key it contains to a non-empty zone set; keys are
only ever created by inserting a zone. -/
theorem getInstanceTypeZones_values_nonempty :
    ∀ env nt s m, alLookup s.cacheZones nt.subnetSelector = none →
      (InstanceTypeProvider.getInstanceTypeZones env nt s).1 = Except.ok m →
      ∀ p ∈ m, p.2 ≠ [] := by
  intro env nt s m hmiss h
  unfold InstanceTypeProvider.getInstanceTypeZones at h
  rw [hmiss] at h
  dsimp only at h
  cases hd : env.describeSubnets nt.subnetSelector with
  | error e =>
      rw [hd] at h
      exact absurd h (by simp)
  | ok subnets =>
      rw [hd] at h
      dsimp only at h
      by_cases hlen : subnets.length = 0
      · rw [if_pos hlen] at h
        exact absurd h (by simp)
      · rw [if_neg hlen] at h
        cases ho : env.describeZoneOfferings with
        | error e =>
            rw [ho] at h
            exact absurd h (by simp)
        | ok offs =>
            rw [ho] at h
            dsimp only at h
            obtain rfl := Except.ok.inj h
            exact buildZoneMap_values_nonempty _ offs

/-- Witness for C9: in the concrete environment `envZones`, the returned zone
map is [("m5.large", ["A"])] and its (only) entry has a non-empty zone set. -/
theorem getInstanceTypeZones_values_nonempty_witness :
    (("m5.large", ["A"]) : String × List String).2 ≠ [] :=
  getInstanceTypeZones_values_nonempty envZones ntX sEmpty [("m5.large", ["A"])] rfl rfl
    ("m5.large", ["A"]) (by decide)

/-- A zone map binding "m5.large" to zones {A}, as previously cached. -/
def zmX : ZoneMap := [("m5.large", ["A"])]

/-- An environment whose subnet provider currently matches zero subnets. -/
def envNoSubnets : Env :=
  { describeInstanceTypes := Except.ok [itOD],
    describeSubnets := fun _ => Except.ok [],
    describeZoneOfferings := Except.ok [],
    pricing := prEmpty,
    unavailable := uEmpty }

/-- A provider state still holding a catalog entry and a zone-map entry for
selector "sel-1" cached by an earlier resolution. -/
def sWarm : ProviderState :=
  { cacheTypes := some (buildTypesMap [itOD]),
    cacheZones := [("sel-1", zmX)],
    cacheResult := [],
    cmInstanceTypes := some (buildTypesMap [itOD]),
    instanceTypesSeqNum := 1 }

/-- C5 counterexample: while the subnet selector of `ntX` currently matches
zero subnets, `List` still returns a successful (non-error, non-empty) result,
because the zone map cached for that selector is served without consulting the
subnet provider. -/
theorem list_zero_subnets_counterexample :
    envNoSubnets.describeSubnets ntX.subnetSelector = Except.ok [] ∧
    (InstanceTypeProvider.List envNoSubnets "kc" ntX sWarm).1 =
      Except.ok [{ name := "m5.large",
                   offerings := [{ zone := "A", capacityType := "on-demand",
                                   price := 0, available := false }] }] :=
  ⟨rfl, rfl⟩

/-- C5 (amended): when no zone map is cached for the subnet selector of the
template, a selector matching zero subnets makes `List` fail with the
`no subnets matched selector` error — never a successful result (given the
catalog fetch succeeded; a catalog fetch error likewise aborts `List`). -/
theorem list_zero_subnets_error :
    ∀ env kc nt s its s₁,
      alLookup s.cacheZones nt.subnetSelector = none →
      env.describeSubnets nt.subnetSelector = Except.ok [] →
      InstanceTypeProvider.getInstanceTypes env s = (Except.ok its, s₁) →
      InstanceTypeProvider.List env kc nt s =
        (Except.error ("no subnets matched selector " ++ nt.subnetSelector), s₁) := by
  intro env kc nt s its s₁ hmiss hsub hg
  have hz : InstanceTypeProvider.getInstanceTypeZones env nt s₁ =
      (Except.error ("no subnets matched selector " ++ nt.subnetSelector), s₁) := by
    unfold InstanceTypeProvider.getInstanceTypeZones
    rw [(getInstanceTypes_ok_state hg).2.1, hmiss]
    dsimp only
    rw [hsub]
    simp
  unfold InstanceTypeProvider.List
  rw [hg]
  dsimp only
  rw [hz]

/-- A provider state holding a cached catalog but no cached zone maps. -/
def sColdZones : ProviderState :=
  { cacheTypes := some (buildTypesMap [itOD]),
    cacheZones := [],
    cacheResult := [],
    cmInstanceTypes := none,
    instanceTypesSeqNum := 1 }

/-- Witness for C5: with no cached zone map, the zero-subnet selector makes
`List` return the `no subnets matched selector` error. -/
theorem list_zero_subnets_error_witness :
    InstanceTypeProvider.List envNoSubnets "kc" ntX sColdZones =
      (Except.error ("no subnets matched selector " ++ ntX.subnetSelector), sColdZones) :=
  list_zero_subnets_error envNoSubnets "kc" ntX sColdZones (buildTypesMap [itOD]) sColdZones
    rfl rfl rfl

lemma list_error_of_types_error {env : Env} (kc : String) (nt : AWSNodeTemplate)
    {s : ProviderState} {e : String} {s₁ : ProviderState}
    (hg : InstanceTypeProvider.getInstanceTypes env s = (Except.error e, s₁)) :
    InstanceTypeProvider.List env kc nt s = (Except.error e, s₁) := by
  unfold InstanceTypeProvider.List
  rw [hg]

lemma list_error_of_zones_error {env : Env} {kc : String} {nt : AWSNodeTemplate}
    {s : ProviderState} {its : List (String × InstanceTypeInfo)} {s₁ : ProviderState}
    {e : String} {s₂ : ProviderState}
    (hg : InstanceTypeProvider.getInstanceTypes env s = (Except.ok its, s₁))
    (hz : InstanceTypeProvider.getInstanceTypeZones env nt s₁ = (Except.error e, s₂)) :
    InstanceTypeProvider.List env kc nt s = (Except.error e, s₂) := by
  unfold InstanceTypeProvider.List
  rw [hg]
  dsimp only
  rw [hz]

lemma list_error_result_cache {env : Env} {kc : String} {nt : AWSNodeTemplate}
    {s : ProviderState} {e : String} {s' : ProviderState}
    (h : InstanceTypeProvider.List env kc nt s = (Except.error e, s')) :
    s'.cacheResult = s.cacheResult := by
  rcases hg : InstanceTypeProvider.getInstanceTypes env s with ⟨g, s₁⟩
  cases g with
  | error e' =>
      rw [list_error_of_types_error kc nt hg] at h
      obtain ⟨h1, h2⟩ := Prod.mk.injEq .. ▸ h
      subst h2
      rw [getInstanceTypes_error_state hg]
  | ok its =>
      rcases hz : InstanceTypeProvider.getInstanceTypeZones env nt s₁ with ⟨z, s₂⟩
      cases z with
      | error e' =>
          rw [list_error_of_zones_error hg hz] at h
          obtain ⟨h1, h2⟩ := Prod.mk.injEq .. ▸ h
          subst h2
          rw [getInstanceTypeZones_error_state hz]
          exact (getInstanceTypes_ok_state hg).2.2
      | ok m =>
          unfold InstanceTypeProvider.List at h
          rw [hg] at h
          dsimp only at h
          rw [hz] at h
          dsimp only at h
          cases hl : alLookup s₂.cacheResult
              (compositeKey s₂.instanceTypesSeqNum env.unavailable.SeqNum nt.uid m kc) with
          | some cached =>
              rw [hl] at h
              exact absurd (congrArg Prod.fst h) (by simp)
          | none =>
              rw [hl] at h
              exact absurd (congrArg Prod.fst h) (by simp)

/-- C7: an error from the catalog fetch or the zone-map fetch aborts `List`
with exactly that error and no result list, and whenever `List` returns an
error the composite-key result cache is left unchanged. -/
theorem list_error_failfast :
    (∀ env kc nt s e s₁,
        InstanceTypeProvider.getInstanceTypes env s = (Except.error e, s₁) →
        InstanceTypeProvider.List env kc nt s = (Except.error e, s₁)) ∧
    (∀ env kc nt s its s₁ e s₂,
        InstanceTypeProvider.getInstanceTypes env s = (Except.ok its, s₁) →
        InstanceTypeProvider.getInstanceTypeZones env nt s₁ = (Except.error e, s₂) →
        InstanceTypeProvider.List env kc nt s = (Except.error e, s₂)) ∧
    (∀ env kc nt s e s',
        InstanceTypeProvider.List env kc nt s = (Except.error e, s') →
        s'.cacheResult = s.cacheResult) :=
  ⟨fun _ kc nt _ _ _ hg => list_error_of_types_error kc nt hg,
   fun _ _ _ _ _ _ _ _ hg hz => list_error_of_zones_error hg hz,
   fun _ _ _ _ _ _ h => list_error_result_cache h⟩

/-- An environment whose catalog fetch fails. -/
def envErr : Env :=
  { describeInstanceTypes := Except.error "boom",
    describeSubnets := fun _ => Except.ok [{ availabilityZone := "A" }],
    describeZoneOfferings := Except.ok [],
    pricing := prEmpty,
    unavailable := uEmpty }

/-- Witness for C7: a failed catalog fetch surfaces as the wrapped fetch
error from `List`, and the result cache is unchanged on that error. -/
theorem list_error_failfast_witness :
    InstanceTypeProvider.List envErr "kc" ntX sEmpty =
      (Except.error "fetching instance types using ec2.DescribeInstanceTypes, boom", sEmpty) ∧
    sEmpty.cacheResult = sEmpty.cacheResult :=
  ⟨list_error_failfast.1 envErr "kc" ntX sEmpty
      "fetching instance types using ec2.DescribeInstanceTypes, boom" sEmpty rfl,
   list_error_failfast.2.2 envErr "kc" ntX sEmpty
      "fetching instance types using ec2.DescribeInstanceTypes, boom" sEmpty
      (list_error_failfast.1 envErr "kc" ntX sEmpty
        "fetching instance types using ec2.DescribeInstanceTypes, boom" sEmpty rfl)⟩

lemma list_of_all_cached {env : Env} {kc : String} {nt : AWSNodeTemplate}
    {t : ProviderState} {its : List (String × InstanceTypeInfo)} {m : ZoneMap}
    {r : List ResolvedInstanceType}
    (h1 : t.cacheTypes = some its)
    (h2 : alLookup t.cacheZones nt.subnetSelector = some m)
    (h3 : alLookup t.cacheResult
        (compositeKey t.instanceTypesSeqNum env.unavailable.SeqNum nt.uid m kc) = some r) :
    InstanceTypeProvider.List env kc nt t = (Except.ok r, t) := by
  unfold InstanceTypeProvider.List
  rw [getInstanceTypes_of_cached h1]
  dsimp only
  rw [getInstanceTypeZones_of_cached h2]
  dsimp only
  rw [h3]

/-- C8: a second `List` call against the state left by a successful first
call — the environment (catalog sequence number, unavailability sequence
number, zone-map content) and the inputs (node template, kubelet
configuration) unchanged — returns the identical cached result list and
leaves the state untouched: nothing is recomputed or re-fetched. -/
theorem list_idempotent :
    ∀ env kc nt s r s',
      InstanceTypeProvider.List env kc nt s = (Except.ok r, s') →
      InstanceTypeProvider.List env kc nt s' = (Except.ok r, s') := by
  intro env kc nt s r s' h
  rcases hg : InstanceTypeProvider.getInstanceTypes env s with ⟨g, s₁⟩
  cases g with
  | error e =>
      rw [list_error_of_types_error kc nt hg] at h
      exact absurd (congrArg Prod.fst h) (by simp)
  | ok its =>
      rcases hz : InstanceTypeProvider.getInstanceTypeZones env nt s₁ with ⟨z, s₂⟩
      cases z with
      | error e =>
          rw [list_error_of_zones_error hg hz] at h
          exact absurd (congrArg Prod.fst h) (by simp)
      | ok m =>
          unfold InstanceTypeProvider.List at h
          rw [hg] at h
          dsimp only at h
          rw [hz] at h
          dsimp only at h
          have ht₂ : s₂.cacheTypes = some its := by
            rw [(getInstanceTypeZones_ok_state hz).2.1]
            exact (getInstanceTypes_ok_state hg).1
          cases hl : alLookup s₂.cacheResult
              (compositeKey s₂.instanceTypesSeqNum env.unavailable.SeqNum nt.uid m kc) with
          | some cached =>
              rw [hl] at h
              obtain ⟨h1, h2⟩ := Prod.mk.injEq .. ▸ h
              obtain rfl := Except.ok.inj h1
              subst h2
              exact list_of_all_cached ht₂ (getInstanceTypeZones_ok_state hz).1 hl
          | none =>
              rw [hl] at h
              dsimp only at h
              obtain ⟨h1, h2⟩ := Prod.mk.injEq .. ▸ h
              obtain rfl := Except.ok.inj h1
              subst h2
              exact list_of_all_cached ht₂ (getInstanceTypeZones_ok_state hz).1
                (alLookup_alInsert_self ..)

/-- The result list computed by the first `List` call in the idempotence
witness scenario. -/
def r₀ : List ResolvedInstanceType :=
  [{ name := "m5.large",
     offerings := [{ zone := "A", capacityType := "on-demand",
                     price := 0, available := false }] }]

/-- The provider state left by that first `List` call: catalog, zone map and
composite-key result all cached, sequence number bumped to 1. -/
def s₀ : ProviderState :=
  { cacheTypes := some [("m5.large", itOD)],
    cacheZones := [("sel-1", [("m5.large", ["A"])])],
    cacheResult := [(compositeKey 1 0 "uid-1" [("m5.large", ["A"])] "kc", r₀)],
    cmInstanceTypes := some [("m5.large", itOD)],
    instanceTypesSeqNum := 1 }

/-- Witness for C8: after the concrete first call
`List envZones "kc" ntX sEmpty = (ok r₀, s₀)`, the second call returns the
identical cached list and leaves the state untouched. -/
theorem list_idempotent_witness :
    InstanceTypeProvider.List envZones "kc" ntX s₀ = (Except.ok r₀, s₀) :=
  list_idempotent envZones "kc" ntX sEmpty r₀ s₀ rfl

/-- C6: on a composite-key cache miss (after successful catalog and zone-map
fetches), `List` produces exactly one `ResolvedInstanceType` per catalog
entry, in catalog order; an instance type with no entry in the zone map is
still included, with the empty offering list, rather than filtered out. -/
theorem list_one_resolved_per_catalog_type :
    ∀ env kc nt s its s₁ m s₂,
      InstanceTypeProvider.getInstanceTypes env s = (Except.ok its, s₁) →
      InstanceTypeProvider.getInstanceTypeZones env nt s₁ = (Except.ok m, s₂) →
      alLookup s₂.cacheResult
        (compositeKey s₂.instanceTypesSeqNum env.unavailable.SeqNum nt.uid m kc) = none →
      ∃ r, (InstanceTypeProvider.List env kc nt s).1 = Except.ok r ∧
        r.length = its.length ∧
        ∀ k, (hk : k < its.length) → ∀ (hk' : k < r.length),
          (r.get ⟨k, hk'⟩).name = ((its.get ⟨k, hk⟩).2).instanceType ∧
          (alLookup m ((its.get ⟨k, hk⟩).2).instanceType = none →
            (r.get ⟨k, hk'⟩).offerings = []) := by
  intro env kc nt s its s₁ m s₂ hg hz hmiss
  refine ⟨its.map fun p =>
      newInstanceType p.2
        (InstanceTypeProvider.createOfferings env.unavailable env.pricing p.2
          ((alLookup m p.2.instanceType).getD [])), ?_, by simp, ?_⟩
  · unfold InstanceTypeProvider.List
    rw [hg]
    dsimp only
    rw [hz]
    dsimp only
    rw [hmiss]
  · intro k hk hk'
    rw [List.get_map]
    refine ⟨rfl, ?_⟩
    intro hnone
    show InstanceTypeProvider.createOfferings env.unavailable env.pricing
        ((its.get ⟨k, hk⟩).2) ((alLookup m ((its.get ⟨k, hk⟩).2).instanceType).getD []) = []
    rw [hnone]
    rfl

/-- The provider state after the catalog fetch of the witness scenario. -/
def sAfterTypes : ProviderState :=
  { cacheTypes := some [("m5.large", itOD)],
    cacheZones := [],
    cacheResult := [],
    cmInstanceTypes := some [("m5.large", itOD)],
    instanceTypesSeqNum := 1 }

/-- The provider state after the zone-map fetch of the witness scenario. -/
def sAfterZones : ProviderState :=
  { cacheTypes := some [("m5.large", itOD)],
    cacheZones := [("sel-1", [("m5.large", ["A"])])],
    cacheResult := [],
    cmInstanceTypes := some [("m5.large", itOD)],
    instanceTypesSeqNum := 1 }

/-- Witness for C6: the concrete cold-cache resolution against `envZones`
yields exactly one `ResolvedInstanceType` for the one catalog entry. -/
theorem list_one_resolved_per_catalog_type_witness :
    ∃ r, (InstanceTypeProvider.List envZones "kc" ntX sEmpty).1 = Except.ok r ∧
      r.length = ([("m5.large", itOD)] : List (String × InstanceTypeInfo)).length ∧
      ∀ k, (hk : k < ([("m5.large", itOD)] : List (String × InstanceTypeInfo)).length) →
        ∀ (hk' : k < r.length),
        (r.get ⟨k, hk'⟩).name =
          ((([("m5.large", itOD)] : List (String × InstanceTypeInfo)).get ⟨k, hk⟩).2).instanceType ∧
        (alLookup [("m5.large", ["A"])]
            ((([("m5.large", itOD)] : List (String × InstanceTypeInfo)).get ⟨k, hk⟩).2).instanceType =
              none →
          (r.get ⟨k, hk'⟩).offerings = []) :=
  list_one_resolved_per_catalog_type envZones "kc" ntX sEmpty [("m5.large", itOD)] sAfterTypes
    [("m5.large", ["A"])] sAfterZones rfl rfl rfl
